import Mathlib

/-!
# Verification of the decoupling-analysis core

Shallow embedding of the two analytical components of the repository
`decoupling-analysis-central-asia`:

* the Tapio decoupling classifier `get_decoupling_status`
  (src/analysis.py, lines 23-62), embedded over `Option ℚ` where `none`
  stands for a missing value (float NaN, detected by `pd.isna`) and exact
  rational arithmetic idealizes float arithmetic;

* the LMDI decomposition engine (src/kazakhstan_lmdi.py): the logarithmic
  mean weight `lmdi_weight` (lines 24-37) and the year-pair loop of
  `run_lmdi_analysis` (lines 78-151), embedded over `ℝ` for the well-defined
  regime, and additionally over an extended value type `EF`
  (finite reals plus `+inf`, `-inf`, `nan`) that models the IEEE-754 special
  values produced by numpy/pandas on degenerate inputs (division by zero,
  `np.log` of zero or of infinity), with finite arithmetic idealized as exact.
-/

/-! ## Decoupling classifier (src/analysis.py, lines 23-62)

Translation of `get_decoupling_status(gdp_growth, em_growth)`.  The Python
function first returns `"No Data"` when either argument is NaN
(`pd.isna`), then walks four sign guards in order; inside the two
same-sign guards a dead `if gdp_growth == 0` check precedes the
elasticity cascade.  Every branch of the source returns, so the
sequential `if` statements are an if/else chain. -/
def get_decoupling_status (gdp_growth em_growth : Option ℚ) : String :=
  match gdp_growth, em_growth with
  | some g, some e =>
    if g > 0 ∧ e < 0 then "Strong Decoupling"
    else if g > 0 ∧ e > 0 then
      if g = 0 then "Not Classified"
      else if e / g < 0.8 then "Weak Decoupling"
      else if e / g ≤ 1.2 then "Coupling"
      else "Strong Coupling"
    else if g < 0 ∧ e < 0 then
      if g = 0 then "Not Classified"
      else if e / g > 1.2 then "Weak Recession"
      else if e / g ≥ 0.8 then "Coupled Recession"
      else "Strong Recession"
    else if g < 0 ∧ e > 0 then "Strong Negative Coupling"
    else "Not Classified"
  | _, _ => "No Data"

/-- The closed vocabulary of labels the classifier can emit. -/
def labelVocab : List String :=
  ["No Data", "Strong Decoupling", "Weak Decoupling", "Coupling",
   "Strong Coupling", "Weak Recession", "Coupled Recession",
   "Strong Recession", "Strong Negative Coupling", "Not Classified"]

/-- In the positive/positive quadrant the classifier reduces to the
elasticity cascade of the source. -/
lemma classify_pos_pos (g e : ℚ) (hg : 0 < g) (he : 0 < e) :
    get_decoupling_status (some g) (some e) =
      if e / g < 0.8 then "Weak Decoupling"
      else if e / g ≤ 1.2 then "Coupling"
      else "Strong Coupling" := by
  have h1 : ¬(g > 0 ∧ e < 0) := fun h => absurd he (not_lt.mpr h.2.le)
  have h2 : g > 0 ∧ e > 0 := ⟨hg, he⟩
  have h3 : ¬g = 0 := ne_of_gt hg
  simp only [get_decoupling_status, if_neg h1, if_pos h2, if_neg h3]

/-- In the negative/negative quadrant the classifier reduces to the
recession elasticity cascade of the source. -/
lemma classify_neg_neg (g e : ℚ) (hg : g < 0) (he : e < 0) :
    get_decoupling_status (some g) (some e) =
      if e / g > 1.2 then "Weak Recession"
      else if e / g ≥ 0.8 then "Coupled Recession"
      else "Strong Recession" := by
  have h1 : ¬(g > 0 ∧ e < 0) := fun h => absurd hg (not_lt.mpr h.1.le)
  have h2 : ¬(g > 0 ∧ e > 0) := fun h => absurd hg (not_lt.mpr h.1.le)
  have h3 : g < 0 ∧ e < 0 := ⟨hg, he⟩
  have h4 : ¬g = 0 := ne_of_lt hg
  simp only [get_decoupling_status, if_neg h1, if_neg h2, if_pos h3, if_neg h4]

/-- With a positive economic rate and a negative emissions rate the first
sign guard fires. -/
lemma classify_pos_neg (g e : ℚ) (hg : 0 < g) (he : e < 0) :
    get_decoupling_status (some g) (some e) = "Strong Decoupling" := by
  simp only [get_decoupling_status, if_pos (And.intro hg he)]

/-- With a negative economic rate and a positive emissions rate the fourth
sign guard fires. -/
lemma classify_neg_pos (g e : ℚ) (hg : g < 0) (he : 0 < e) :
    get_decoupling_status (some g) (some e) = "Strong Negative Coupling" := by
  have h1 : ¬(g > 0 ∧ e < 0) := fun h => absurd hg (not_lt.mpr h.1.le)
  have h2 : ¬(g > 0 ∧ e > 0) := fun h => absurd hg (not_lt.mpr h.1.le)
  have h3 : ¬(g < 0 ∧ e < 0) := fun h => absurd he (not_lt.mpr h.2.le)
  have h4 : g < 0 ∧ e > 0 := ⟨hg, he⟩
  simp only [get_decoupling_status, if_neg h1, if_neg h2, if_neg h3, if_pos h4]

/-- A zero economic growth rate falls through every sign guard. -/
lemma classify_gdp_zero (g e : ℚ) (hg : g = 0) :
    get_decoupling_status (some g) (some e) = "Not Classified" := by
  subst hg
  have h1 : ¬((0:ℚ) > 0 ∧ e < 0) := fun h => absurd h.1 (lt_irrefl 0)
  have h2 : ¬((0:ℚ) > 0 ∧ e > 0) := fun h => absurd h.1 (lt_irrefl 0)
  have h3 : ¬((0:ℚ) < 0 ∧ e < 0) := fun h => absurd h.1 (lt_irrefl 0)
  have h4 : ¬((0:ℚ) < 0 ∧ e > 0) := fun h => absurd h.1 (lt_irrefl 0)
  simp only [get_decoupling_status, if_neg h1, if_neg h2, if_neg h3, if_neg h4]

/-- A zero emissions growth rate falls through every sign guard. -/
lemma classify_em_zero (g e : ℚ) (he : e = 0) :
    get_decoupling_status (some g) (some e) = "Not Classified" := by
  subst he
  have h1 : ¬(g > 0 ∧ (0:ℚ) < 0) := fun h => absurd h.2 (lt_irrefl 0)
  have h2 : ¬(g > 0 ∧ (0:ℚ) > 0) := fun h => absurd h.2 (lt_irrefl 0)
  have h3 : ¬(g < 0 ∧ (0:ℚ) < 0) := fun h => absurd h.2 (lt_irrefl 0)
  have h4 : ¬(g < 0 ∧ (0:ℚ) > 0) := fun h => absurd h.2 (lt_irrefl 0)
  simp only [get_decoupling_status, if_neg h1, if_neg h2, if_neg h3, if_neg h4]

/-- C2: Elasticity band table with inclusive boundaries: under positive
growth of both rates the classifier returns "Weak Decoupling" iff
elasticity < 0.8, "Coupling" iff 0.8 <= elasticity <= 1.2 (both endpoints
included), and "Strong Coupling" iff elasticity > 1.2; under negative
growth of both rates it returns "Weak Recession" iff elasticity > 1.2,
"Coupled Recession" iff 0.8 <= elasticity <= 1.2, and "Strong Recession"
iff elasticity < 0.8, where elasticity = em_growth / gdp_growth. -/
theorem tapio_elasticity_bands (g e : ℚ) :
    (0 < g → 0 < e →
      ((get_decoupling_status (some g) (some e) = "Weak Decoupling" ↔ e / g < 0.8)
       ∧ (get_decoupling_status (some g) (some e) = "Coupling" ↔ 0.8 ≤ e / g ∧ e / g ≤ 1.2)
       ∧ (get_decoupling_status (some g) (some e) = "Strong Coupling" ↔ 1.2 < e / g)))
    ∧ (g < 0 → e < 0 →
      ((get_decoupling_status (some g) (some e) = "Weak Recession" ↔ 1.2 < e / g)
       ∧ (get_decoupling_status (some g) (some e) = "Coupled Recession" ↔ 0.8 ≤ e / g ∧ e / g ≤ 1.2)
       ∧ (get_decoupling_status (some g) (some e) = "Strong Recession" ↔ e / g < 0.8))) := by
  constructor
  · intro hg he
    rw [classify_pos_pos g e hg he]
    refine ⟨?_, ?_, ?_⟩ <;> split_ifs with h1 h2
    · exact iff_of_true rfl h1
    · exact iff_of_false (by decide) (fun h => absurd h (not_lt.mpr (le_of_not_lt h1)))
    · exact iff_of_false (by decide) (fun h => absurd h (not_lt.mpr (le_of_not_lt h1)))
    · exact iff_of_false (by decide) (fun h => absurd h1 (not_lt.mpr h.1))
    · exact iff_of_true rfl ⟨le_of_not_lt h1, h2⟩
    · exact iff_of_false (by decide) (fun h => absurd h.2 h2)
    · exact iff_of_false (by decide) (fun h => absurd (h.trans h1) (by norm_num))
    · exact iff_of_false (by decide) (fun h => absurd h (not_lt.mpr h2))
    · exact iff_of_true rfl (lt_of_not_le h2)
  · intro hg he
    rw [classify_neg_neg g e hg he]
    refine ⟨?_, ?_, ?_⟩ <;> split_ifs with h1 h2
    · exact iff_of_true rfl h1
    · exact iff_of_false (by decide) (fun h => absurd h (not_lt.mpr (le_of_not_lt h1)))
    · exact iff_of_false (by decide) (fun h => absurd h (not_lt.mpr (le_of_not_lt h1)))
    · exact iff_of_false (by decide) (fun h => absurd h1 (not_lt.mpr h.2))
    · exact iff_of_true rfl ⟨h2, le_of_not_lt h1⟩
    · exact iff_of_false (by decide) (fun h => absurd h.1 h2)
    · exact iff_of_false (by decide) (fun h => absurd (h1.trans h) (by norm_num))
    · exact iff_of_false (by decide) (fun h => absurd h2 (not_le.mpr h))
    · exact iff_of_true rfl (lt_of_not_le h2)

/-- Witness for C2: elasticity exactly 1 classifies as "Coupling". -/
theorem tapio_elasticity_bands_witness :
    get_decoupling_status (some 1) (some 1) = "Coupling" :=
  (((tapio_elasticity_bands 1 1).1 (by norm_num) (by norm_num)).2.1).mpr
    (by norm_num)

/-- C5: missing-data handling of the classifier: a missing value in either
argument yields "No Data", and for every input pair the classifier is a
total function returning a label of the closed vocabulary. -/
theorem classifier_no_data_total (g e : Option ℚ) :
    ((g = none ∨ e = none) → get_decoupling_status g e = "No Data")
    ∧ get_decoupling_status g e ∈ labelVocab := by
  constructor
  · rintro (rfl | rfl)
    · cases e <;> rfl
    · cases g <;> rfl
  · cases g with
    | none => cases e <;> exact List.mem_cons_self _ _
    | some a =>
      cases e with
      | none => exact List.mem_cons_self _ _
      | some b =>
        simp only [get_decoupling_status]
        split_ifs <;> decide

/-- Witness for C5: classify(NaN, 3.0) and classify(3.0, NaN) are "No Data". -/
theorem classifier_no_data_total_witness :
    get_decoupling_status none (some 3) = "No Data"
    ∧ get_decoupling_status (some 3) none = "No Data" :=
  ⟨(classifier_no_data_total none (some 3)).1 (Or.inl rfl),
   (classifier_no_data_total (some 3) none).1 (Or.inr rfl)⟩

/-- C6: sign-quadrant and zero-rate classification: positive economic
growth with negative emissions growth is "Strong Decoupling", negative
economic growth with positive emissions growth is "Strong Negative
Coupling", and a growth rate exactly zero on either side always yields
"Not Classified". -/
theorem tapio_sign_quadrants (g e : ℚ) :
    (0 < g → e < 0 → get_decoupling_status (some g) (some e) = "Strong Decoupling")
    ∧ (g < 0 → 0 < e → get_decoupling_status (some g) (some e) = "Strong Negative Coupling")
    ∧ (g = 0 → get_decoupling_status (some g) (some e) = "Not Classified")
    ∧ (e = 0 → get_decoupling_status (some g) (some e) = "Not Classified") :=
  ⟨classify_pos_neg g e, classify_neg_pos g e, classify_gdp_zero g e,
   classify_em_zero g e⟩

/-- Witness for C6: classify(5, -2) = "Strong Decoupling",
classify(-5, 2) = "Strong Negative Coupling", classify(0, 7) and
classify(7, 0) are "Not Classified". -/
theorem tapio_sign_quadrants_witness :
    get_decoupling_status (some 5) (some (-2)) = "Strong Decoupling"
    ∧ get_decoupling_status (some (-5)) (some 2) = "Strong Negative Coupling"
    ∧ get_decoupling_status (some 0) (some 7) = "Not Classified"
    ∧ get_decoupling_status (some 7) (some 0) = "Not Classified" :=
  ⟨(tapio_sign_quadrants 5 (-2)).1 (by norm_num) (by norm_num),
   (tapio_sign_quadrants (-5) 2).2.1 (by norm_num) (by norm_num),
   (tapio_sign_quadrants 0 7).2.2.1 rfl,
   (tapio_sign_quadrants 7 0).2.2.2 rfl⟩

/-- C10: scale invariance of the classifier: multiplying both growth rates
by the same strictly positive factor (missing values stay missing) leaves
the label unchanged, since the decision depends only on the signs of the
two rates and on their ratio. -/
theorem classifier_scale_invariant (k : ℚ) (g e : Option ℚ) (hk : 0 < k) :
    get_decoupling_status (Option.map (fun x => k * x) g)
        (Option.map (fun x => k * x) e)
      = get_decoupling_status g e := by
  cases g with
  | none => cases e <;> rfl
  | some a =>
    cases e with
    | none => rfl
    | some b =>
      have hpos : ∀ x : ℚ, 0 < k * x ↔ 0 < x := by
        intro x
        constructor
        · intro h
          by_contra hx
          push_neg at hx
          nlinarith
        · exact fun h => mul_pos hk h
      have hneg : ∀ x : ℚ, k * x < 0 ↔ x < 0 := by
        intro x
        constructor
        · intro h
          by_contra hx
          push_neg at hx
          nlinarith
        · exact fun h => mul_neg_of_pos_of_neg hk h
      have hz : ∀ x : ℚ, k * x = 0 ↔ x = 0 := by
        intro x
        rw [mul_eq_zero]
        simp [ne_of_gt hk]
      have hdiv : k * b / (k * a) = b / a := mul_div_mul_left b a (ne_of_gt hk)
      simp only [Option.map_some', get_decoupling_status, gt_iff_lt, hpos, hneg,
        hz, hdiv]

/-- Witness for C10: doubling the pair (3, 3) leaves the label unchanged. -/
theorem classifier_scale_invariant_witness :
    get_decoupling_status (Option.map (fun x => 2 * x) (some 3))
        (Option.map (fun x => 2 * x) (some 3))
      = get_decoupling_status (some 3) (some 3) :=
  classifier_scale_invariant 2 (some 3) (some 3) (by norm_num)

/-! ## Logarithmic mean weight (src/kazakhstan_lmdi.py, lines 24-37)

The source function is

    def lmdi_weight(v_t, v_0):
        if v_t == v_0:
            return v_t
        if v_t == 0 or pd.isna(v_t):
            v_t = 1e-9
        if v_0 == 0 or pd.isna(v_0):
            v_0 = 1e-9
        return (v_t - v_0) / (np.log(v_t) - np.log(v_0))

It is embedded twice: `lmdi_weight` over `ℝ` for present (non-NaN) float
inputs whose arithmetic stays finite — the regime of the decomposition
run on strictly positive data — and `lmdi_weightF` over the extended
value type `EF` which additionally models NaN inputs and the IEEE-754
special values (`0/0` is NaN, `np.log 0` is `-inf`, `np.log` of a
negative is NaN). -/

/-- Epsilon substitution of the source: a value equal to zero is replaced
by the fixed constant `1e-9` before the logarithms are taken. -/
noncomputable def substEpsR (x : ℝ) : ℝ := if x = 0 then 1e-9 else x

/-- `lmdi_weight` over the reals: the equality test of the source comes
first, then epsilon substitution, then the log-mean formula. -/
noncomputable def lmdi_weight (v_t v_0 : ℝ) : ℝ :=
  if v_t = v_0 then v_t
  else (substEpsR v_t - substEpsR v_0) /
    (Real.log (substEpsR v_t) - Real.log (substEpsR v_0))

lemma substEpsR_of_ne (x : ℝ) (hx : x ≠ 0) : substEpsR x = x := if_neg hx

/-- Extended float value: a finite real, a signed infinity, or NaN.
Finite arithmetic is idealized as exact; the special values follow
IEEE-754 double semantics as implemented by numpy (signed zero is
identified with `fin 0`, which is accurate for the non-negative data the
engine consumes). -/
inductive EF where
  | nan : EF
  | pinf : EF
  | ninf : EF
  | fin : ℝ → EF

/-- IEEE addition on extended values. -/
noncomputable def EF.add : EF → EF → EF
  | EF.nan, _ => EF.nan
  | _, EF.nan => EF.nan
  | EF.pinf, EF.ninf => EF.nan
  | EF.ninf, EF.pinf => EF.nan
  | EF.pinf, _ => EF.pinf
  | _, EF.pinf => EF.pinf
  | EF.ninf, _ => EF.ninf
  | _, EF.ninf => EF.ninf
  | EF.fin x, EF.fin y => EF.fin (x + y)

/-- IEEE subtraction on extended values. -/
noncomputable def EF.sub : EF → EF → EF
  | EF.nan, _ => EF.nan
  | _, EF.nan => EF.nan
  | EF.pinf, EF.pinf => EF.nan
  | EF.ninf, EF.ninf => EF.nan
  | EF.pinf, _ => EF.pinf
  | _, EF.pinf => EF.ninf
  | EF.ninf, _ => EF.ninf
  | _, EF.ninf => EF.pinf
  | EF.fin x, EF.fin y => EF.fin (x - y)

/-- IEEE multiplication on extended values; an infinity times zero is NaN. -/
noncomputable def EF.mul : EF → EF → EF
  | EF.nan, _ => EF.nan
  | _, EF.nan => EF.nan
  | EF.pinf, EF.pinf => EF.pinf
  | EF.pinf, EF.ninf => EF.ninf
  | EF.ninf, EF.pinf => EF.ninf
  | EF.ninf, EF.ninf => EF.pinf
  | EF.pinf, EF.fin x => if x = 0 then EF.nan else if 0 < x then EF.pinf else EF.ninf
  | EF.fin x, EF.pinf => if x = 0 then EF.nan else if 0 < x then EF.pinf else EF.ninf
  | EF.ninf, EF.fin x => if x = 0 then EF.nan else if 0 < x then EF.ninf else EF.pinf
  | EF.fin x, EF.ninf => if x = 0 then EF.nan else if 0 < x then EF.ninf else EF.pinf
  | EF.fin x, EF.fin y => EF.fin (x * y)

/-- IEEE division on extended values: a nonzero finite value divided by
zero is a signed infinity, `0/0` is NaN, a finite value divided by an
infinity is zero, an infinity divided by an infinity is NaN. -/
noncomputable def EF.div : EF → EF → EF
  | EF.nan, _ => EF.nan
  | _, EF.nan => EF.nan
  | EF.pinf, EF.pinf => EF.nan
  | EF.pinf, EF.ninf => EF.nan
  | EF.ninf, EF.pinf => EF.nan
  | EF.ninf, EF.ninf => EF.nan
  | EF.pinf, EF.fin x => if 0 ≤ x then EF.pinf else EF.ninf
  | EF.ninf, EF.fin x => if 0 ≤ x then EF.ninf else EF.pinf
  | EF.fin _, EF.pinf => EF.fin 0
  | EF.fin _, EF.ninf => EF.fin 0
  | EF.fin x, EF.fin y =>
      if y = 0 then
        if x = 0 then EF.nan else if 0 < x then EF.pinf else EF.ninf
      else EF.fin (x / y)

/-- `np.log` on extended values: `log 0 = -inf`, the log of a negative
value (or of `-inf`, or of NaN) is NaN, `log (+inf) = +inf`. -/
noncomputable def EF.log : EF → EF
  | EF.nan => EF.nan
  | EF.pinf => EF.pinf
  | EF.ninf => EF.nan
  | EF.fin x => if x < 0 then EF.nan else if x = 0 then EF.ninf else EF.fin (Real.log x)

/-- Epsilon substitution on extended values: the source replaces a value
for which `v == 0 or pd.isna(v)` holds by `1e-9`; `pd.isna` is true
exactly on NaN, and the float comparison `v == 0` is true exactly on the
finite value zero. -/
noncomputable def EF.substEps : EF → EF
  | EF.nan => EF.fin 1e-9
  | EF.fin x => EF.fin (substEpsR x)
  | v => v

/-- The post-substitution log-mean expression
`(v_t - v_0) / (np.log(v_t) - np.log(v_0))` of the source. -/
noncomputable def lmdiFcore (a b : EF) : EF :=
  EF.div (EF.sub a b) (EF.sub (EF.log a) (EF.log b))

/-- `lmdi_weight` over extended values.  The float equality `v_t == v_0`
of the source is true for two equal finite values and for two like-signed
infinities, and is false whenever either side is NaN; when it fails, both
arguments go through epsilon substitution and the log-mean expression. -/
noncomputable def lmdi_weightF : EF → EF → EF
  | EF.pinf, EF.pinf => EF.pinf
  | EF.ninf, EF.ninf => EF.ninf
  | EF.fin x, EF.fin y =>
      if x = y then EF.fin x
      else lmdiFcore (EF.substEps (EF.fin x)) (EF.substEps (EF.fin y))
  | a, b => lmdiFcore (EF.substEps a) (EF.substEps b)

lemma EF.substEps_nan : EF.substEps EF.nan = EF.fin 1e-9 := rfl

lemma EF.substEps_fin (x : ℝ) : EF.substEps (EF.fin x) = EF.fin (substEpsR x) := rfl

lemma EF.substEps_fin_of_ne (x : ℝ) (hx : x ≠ 0) :
    EF.substEps (EF.fin x) = EF.fin x := by
  rw [EF.substEps_fin, substEpsR_of_ne x hx]

lemma log_ne_log {a b : ℝ} (ha : 0 < a) (hb : 0 < b) (hab : a ≠ b) :
    Real.log a ≠ Real.log b :=
  fun h => hab (Real.log_injOn_pos (Set.mem_Ioi.mpr ha) (Set.mem_Ioi.mpr hb) h)

lemma EF.log_fin_pos {x : ℝ} (hx : 0 < x) :
    EF.log (EF.fin x) = EF.fin (Real.log x) := by
  simp only [EF.log, if_neg (not_lt.mpr hx.le), if_neg hx.ne']

lemma EF.div_fin_fin {x y : ℝ} (hy : y ≠ 0) :
    EF.div (EF.fin x) (EF.fin y) = EF.fin (x / y) := by
  simp only [EF.div, if_neg hy]

/-- On two distinct positive finite values the post-substitution log-mean
expression is the finite logarithmic mean. -/
lemma lmdiFcore_fin_pos {a b : ℝ} (ha : 0 < a) (hb : 0 < b) (hab : a ≠ b) :
    lmdiFcore (EF.fin a) (EF.fin b)
      = EF.fin ((a - b) / (Real.log a - Real.log b)) := by
  have hlog : Real.log a - Real.log b ≠ 0 :=
    sub_ne_zero.mpr (log_ne_log ha hb hab)
  simp only [lmdiFcore, EF.sub, EF.log_fin_pos ha, EF.log_fin_pos hb,
    EF.div_fin_fin hlog]

/-- On two distinct positive finite values `lmdi_weightF` is the finite
logarithmic mean. -/
lemma lmdi_weightF_fin_of_ne {a b : ℝ} (ha : 0 < a) (hb : 0 < b) (hab : a ≠ b) :
    lmdi_weightF (EF.fin a) (EF.fin b)
      = EF.fin ((a - b) / (Real.log a - Real.log b)) := by
  simp only [lmdi_weightF, if_neg hab, EF.substEps_fin_of_ne a ha.ne',
    EF.substEps_fin_of_ne b hb.ne', lmdiFcore_fin_pos ha hb hab]

/-- The logarithmic mean of two distinct positive reals is positive. -/
lemma logMean_pos {a b : ℝ} (ha : 0 < a) (hb : 0 < b) (hab : a ≠ b) :
    0 < (a - b) / (Real.log a - Real.log b) := by
  rcases lt_or_gt_of_ne hab with h | h
  · have hnum : a - b < 0 := sub_neg.mpr h
    have hden : Real.log a - Real.log b < 0 :=
      sub_neg.mpr (Real.log_lt_log ha h)
    exact div_pos_of_neg_of_neg hnum hden
  · have hnum : 0 < a - b := sub_pos.mpr h
    have hden : 0 < Real.log a - Real.log b :=
      sub_pos.mpr (Real.log_lt_log hb h)
    exact div_pos hnum hden

/-- On two positive finite values the weight is a positive finite value. -/
lemma lmdi_weightF_fin_pos {a b : ℝ} (ha : 0 < a) (hb : 0 < b) :
    ∃ w : ℝ, lmdi_weightF (EF.fin a) (EF.fin b) = EF.fin w ∧ 0 < w := by
  by_cases hab : a = b
  · subst hab
    exact ⟨a, by simp [lmdi_weightF], ha⟩
  · exact ⟨(a - b) / (Real.log a - Real.log b),
      lmdi_weightF_fin_of_ne ha hb hab, logMean_pos ha hb hab⟩

/-- Coherence of the two embeddings of `lmdi_weight`: on positive finite
inputs the extended-value weight is the real-valued weight. -/
lemma lmdi_weightF_agrees {a b : ℝ} (ha : 0 < a) (hb : 0 < b) :
    lmdi_weightF (EF.fin a) (EF.fin b) = EF.fin (lmdi_weight a b) := by
  by_cases hab : a = b
  · subst hab
    simp [lmdi_weightF, lmdi_weight]
  · rw [lmdi_weightF_fin_of_ne ha hb hab, lmdi_weight, if_neg hab,
      substEpsR_of_ne a ha.ne', substEpsR_of_ne b hb.ne']

/-- C7: logarithmic-mean weight identity and symmetry: the weight of a
positive value with itself is that value, and the weight of two distinct
positive values does not depend on the order of its arguments — in both
the real-valued and the extended-value embedding of the weight function. -/
theorem logmean_identity_symmetry (v a b : ℝ) (hv : 0 < v) (ha : 0 < a)
    (hb : 0 < b) (hab : a ≠ b) :
    lmdi_weight v v = v
    ∧ lmdi_weight a b = lmdi_weight b a
    ∧ lmdi_weightF (EF.fin v) (EF.fin v) = EF.fin v
    ∧ lmdi_weightF (EF.fin a) (EF.fin b) = lmdi_weightF (EF.fin b) (EF.fin a) := by
  have hsym : lmdi_weight a b = lmdi_weight b a := by
    rw [lmdi_weight, if_neg hab, lmdi_weight, if_neg (Ne.symm hab),
      substEpsR_of_ne a ha.ne', substEpsR_of_ne b hb.ne']
    rw [show b - a = -(a - b) by ring,
      show Real.log b - Real.log a = -(Real.log a - Real.log b) by ring,
      neg_div_neg_eq]
  refine ⟨by simp [lmdi_weight], hsym, by simp [lmdi_weightF], ?_⟩
  · rw [lmdi_weightF_agrees ha hb, lmdi_weightF_agrees hb ha, hsym]

/-- Witness for C7: identity at 1 and symmetry of the pair (1, 2). -/
theorem logmean_identity_symmetry_witness :
    lmdi_weight 1 1 = 1
    ∧ lmdi_weight 1 2 = lmdi_weight 2 1
    ∧ lmdi_weightF (EF.fin 1) (EF.fin 1) = EF.fin 1
    ∧ lmdi_weightF (EF.fin 1) (EF.fin 2) = lmdi_weightF (EF.fin 2) (EF.fin 1) :=
  logmean_identity_symmetry 1 1 2 (by norm_num) (by norm_num) (by norm_num)
    (by norm_num)

/-- A degenerate weight input in the sense of the spec: zero or missing. -/
def EF.degen (v : EF) : Prop := v = EF.nan ∨ v = EF.fin 0

/-- An input that is either missing or a non-negative finite value — the
domain the weight function receives from the cleaned emissions data. -/
def EF.nonnegIn (v : EF) : Prop :=
  v = EF.nan ∨ ∃ x : ℝ, v = EF.fin x ∧ 0 ≤ x

lemma EF.substEps_pos_of_nonnegIn {v : EF} (hv : EF.nonnegIn v) :
    ∃ x : ℝ, EF.substEps v = EF.fin x ∧ 0 < x := by
  rcases hv with rfl | ⟨x, rfl, hx⟩
  · exact ⟨1e-9, rfl, by norm_num⟩
  · by_cases h0 : x = 0
    · subst h0
      exact ⟨1e-9, by simp [EF.substEps, substEpsR], by norm_num⟩
    · exact ⟨x, EF.substEps_fin_of_ne x h0, lt_of_le_of_ne hx (Ne.symm h0)⟩

/-- When the source's first equality test fails, the weight is the
log-mean expression of the two substituted values. -/
lemma lmdi_weightF_subst {vt v0 : EF} (ht : EF.nonnegIn vt) (h0 : EF.nonnegIn v0)
    (hne : ∀ x : ℝ, ¬(vt = EF.fin x ∧ v0 = EF.fin x)) :
    lmdi_weightF vt v0 = lmdiFcore (EF.substEps vt) (EF.substEps v0) := by
  rcases ht with rfl | ⟨x, rfl, hx⟩
  · rcases h0 with rfl | ⟨y, rfl, hy⟩ <;> rfl
  · rcases h0 with rfl | ⟨y, rfl, hy⟩
    · rfl
    · have hxy : x ≠ y := fun h => hne x ⟨rfl, by rw [h]⟩
      simp only [lmdi_weightF, if_neg hxy]

/-- C4 (amended): epsilon-substitution policy of the weight function.
The float-equality test precedes substitution, so the pair (0, 0) returns
0 with no substitution; for any other pair in which a value is zero or
missing, each zero or missing value is replaced by the constant 1e-9 and
the log-mean expression is applied to the substituted values: when the
two substituted values differ the result is the defined finite value
(a - b) / (ln a - ln b); when they coincide (for instance both inputs
missing, or a missing value paired with a zero) the 0/0 form makes the
result NaN, not a finite value. -/
theorem lmdi_weight_epsilon_policy (vt v0 : EF)
    (hd : EF.degen vt ∨ EF.degen v0)
    (ht : EF.nonnegIn vt) (h0 : EF.nonnegIn v0) :
    (vt = EF.fin 0 → v0 = EF.fin 0 → lmdi_weightF vt v0 = EF.fin 0)
    ∧ ((¬(vt = EF.fin 0 ∧ v0 = EF.fin 0)) → EF.substEps vt = EF.substEps v0 →
        lmdi_weightF vt v0 = EF.nan)
    ∧ (∀ a b : ℝ, EF.substEps vt = EF.fin a → EF.substEps v0 = EF.fin b →
        a ≠ b →
        lmdi_weightF vt v0 = EF.fin ((a - b) / (Real.log a - Real.log b))) := by
  refine ⟨?_, ?_, ?_⟩
  · intro h1 h2
    subst h1
    subst h2
    simp [lmdi_weightF]
  · intro hboth heq
    have hne : ∀ x : ℝ, ¬(vt = EF.fin x ∧ v0 = EF.fin x) := by
      rintro x ⟨rfl, hv0⟩
      have hx0 : x = 0 := by
        rcases hd with hdt | hdv
        · rcases hdt with h1 | h1
          · exact EF.noConfusion h1
          · exact EF.fin.inj h1
        · rcases hdv with h1 | h1
          · rw [hv0] at h1
            exact EF.noConfusion h1
          · rw [hv0] at h1
            exact EF.fin.inj h1
      subst hx0
      exact hboth ⟨rfl, hv0⟩
    rw [lmdi_weightF_subst ht h0 hne, heq]
    obtain ⟨b, hb, hbpos⟩ := EF.substEps_pos_of_nonnegIn h0
    rw [hb]
    simp only [lmdiFcore, EF.sub, EF.log_fin_pos hbpos, sub_self]
    simp [EF.div]
  · intro a b hsa hsb hab
    have hne : ∀ x : ℝ, ¬(vt = EF.fin x ∧ v0 = EF.fin x) := by
      rintro x ⟨rfl, rfl⟩
      rw [hsa] at hsb
      exact hab (EF.fin.inj hsb)
    obtain ⟨x, hx, hxpos⟩ := EF.substEps_pos_of_nonnegIn ht
    rw [hsa] at hx
    have hapos : 0 < a := by
      rw [EF.fin.inj hx]
      exact hxpos
    obtain ⟨y, hy, hypos⟩ := EF.substEps_pos_of_nonnegIn h0
    rw [hsb] at hy
    have hbpos : 0 < b := by
      rw [EF.fin.inj hy]
      exact hypos
    rw [lmdi_weightF_subst ht h0 hne, hsa, hsb, lmdiFcore_fin_pos hapos hbpos hab]

/-- Counterexample for C4 as stated: the pair (0, 0) is returned as 0 by
the equality short-circuit, not as the substituted value 1e-9 the claimed
procedure would produce; and the pair (NaN, NaN) — both values missing —
produces NaN, so the result is not always defined and finite. -/
theorem lmdi_weight_epsilon_policy_cex :
    lmdi_weightF (EF.fin 0) (EF.fin 0) = EF.fin 0
    ∧ (0 : ℝ) ≠ 1e-9
    ∧ lmdi_weightF EF.nan EF.nan = EF.nan
    ∧ ∀ x : ℝ, lmdi_weightF EF.nan EF.nan ≠ EF.fin x := by
  have h1 : lmdi_weightF (EF.fin 0) (EF.fin 0) = EF.fin 0 := by
    simp [lmdi_weightF]
  have h2 : lmdi_weightF EF.nan EF.nan = EF.nan := by
    have : lmdi_weightF EF.nan EF.nan
        = lmdiFcore (EF.fin 1e-9) (EF.fin 1e-9) := rfl
    rw [this]
    have hpos : (0:ℝ) < 1e-9 := by norm_num
    simp only [lmdiFcore, EF.sub, EF.log_fin_pos hpos, sub_self]
    simp [EF.div]
  refine ⟨h1, by norm_num, h2, ?_⟩
  intro x
  rw [h2]
  exact fun h => EF.noConfusion h

/-- Witness for C4: a missing value paired with the finite value 1 is
substituted to 1e-9 and yields the finite log-mean of 1e-9 and 1. -/
theorem lmdi_weight_epsilon_policy_witness :
    lmdi_weightF EF.nan (EF.fin 1)
      = EF.fin ((1e-9 - 1) / (Real.log 1e-9 - Real.log 1)) :=
  (lmdi_weight_epsilon_policy EF.nan (EF.fin 1)
      (Or.inl (Or.inl rfl))
      (Or.inl rfl)
      (Or.inr ⟨1, rfl, by norm_num⟩)).2.2 1e-9 1 rfl
    (by norm_num [EF.substEps, substEpsR]) (by norm_num)

/-! ## LMDI decomposition engine (src/kazakhstan_lmdi.py, lines 39-171)

A cleaned input row carries the year and the six numeric levels the
engine reads (the CSV parsing, column cleaning and renaming of lines
44-74 are out-of-scope I/O collaborators; the engine consumes the clean
numeric year-indexed table they produce). -/
structure Row where
  Year : ℤ
  E_total : ℝ
  E_crops : ℝ
  E_livestock : ℝ
  A_total : ℝ
  A_crops : ℝ
  A_livestock : ℝ

/-- A decomposition result row as appended by the loop of lines 144-151. -/
structure ResultRow where
  Year : ℤ
  Delta_E_Total_Actual : ℝ
  Effect_Activity : ℝ
  Effect_Structure : ℝ
  Effect_Intensity : ℝ
  Delta_E_Total_Calculated : ℝ

/-- Sector structure share `S_crops = A_crops / A_total` (line 81). -/
noncomputable def S_crops (r : Row) : ℝ := r.A_crops / r.A_total

/-- Sector structure share `S_livestock = A_livestock / A_total` (line 82). -/
noncomputable def S_livestock (r : Row) : ℝ := r.A_livestock / r.A_total

/-- Sector emission intensity `I_crops = E_crops / A_crops` (line 85). -/
noncomputable def I_crops (r : Row) : ℝ := r.E_crops / r.A_crops

/-- Sector emission intensity `I_livestock = E_livestock / A_livestock`
(line 86). -/
noncomputable def I_livestock (r : Row) : ℝ := r.E_livestock / r.A_livestock

/-- Activity effect accumulated over the two sectors (line 133):
`delta_E_activity += W_i * np.log(A_total_t / A_total_t0)`. -/
noncomputable def delta_E_activity (r0 r : Row) : ℝ :=
  lmdi_weight r.E_crops r0.E_crops * Real.log (r.A_total / r0.A_total)
  + lmdi_weight r.E_livestock r0.E_livestock * Real.log (r.A_total / r0.A_total)

/-- Structure effect accumulated over the two sectors (line 134):
`delta_E_structure += W_i * np.log(S_i_t / S_i_t0)`. -/
noncomputable def delta_E_structure (r0 r : Row) : ℝ :=
  lmdi_weight r.E_crops r0.E_crops * Real.log (S_crops r / S_crops r0)
  + lmdi_weight r.E_livestock r0.E_livestock * Real.log (S_livestock r / S_livestock r0)

/-- Intensity effect accumulated over the two sectors (line 135):
`delta_E_intensity += W_i * np.log(I_i_t / I_i_t0)`. -/
noncomputable def delta_E_intensity (r0 r : Row) : ℝ :=
  lmdi_weight r.E_crops r0.E_crops * Real.log (I_crops r / I_crops r0)
  + lmdi_weight r.E_livestock r0.E_livestock * Real.log (I_livestock r / I_livestock r0)

/-- The result row for one consecutive pair (lines 137-151): keyed by the
later year, carrying the observed change, the three effects, and their
sum as the reconciliation value. -/
noncomputable def resultRow (r0 r : Row) : ResultRow where
  Year := r.Year
  Delta_E_Total_Actual := r.E_total - r0.E_total
  Effect_Activity := delta_E_activity r0 r
  Effect_Structure := delta_E_structure r0 r
  Effect_Intensity := delta_E_intensity r0 r
  Delta_E_Total_Calculated :=
    delta_E_activity r0 r + delta_E_structure r0 r + delta_E_intensity r0 r

/-- The year-pair loop `for i in range(1, len(df))` (lines 97-151): one
result row per pair of positionally adjacent input rows. -/
noncomputable def lmdi_results : List Row → List ResultRow
  | r0 :: r :: rest => resultRow r0 r :: lmdi_results (r :: rest)
  | _ => []

/-- The columns the engine selects and renames on line 61; a pandas
`KeyError` is raised there when any is absent from the loaded frame. -/
def requiredCols : List String :=
  ["Year", "E_total", "E_crops", "E_livestock", "A_total", "A_crops",
   "A_livestock"]

/-- Outcome of one engine run: either the result table is produced and
written (lines 153-165), or a `KeyError` carrying the missing columns is
caught by the blanket handler of lines 170-171, which reports it and ends
the run with no result output. -/
inductive RunOutcome where
  | ok : List ResultRow → RunOutcome
  | keyError : List String → RunOutcome

/-- The data-shape behaviour of `run_lmdi_analysis` (lines 39-171) at the
post-parse level: the column selection of line 61 fails with a `KeyError`
naming the missing columns when any required column is absent; otherwise
the rows are filtered to years of at least 2003 (line 73) and the
year-pair loop runs on the remaining rows in their given order — the
source applies no sorting and no monotonicity or duplicate check to the
year sequence. -/
noncomputable def run_lmdi_analysis (cols : List String) (rows : List Row) :
    RunOutcome :=
  let missing := requiredCols.filter (fun c => !(cols.contains c))
  if missing.isEmpty then
    RunOutcome.ok (lmdi_results (rows.filter (fun r => decide (2003 ≤ r.Year))))
  else RunOutcome.keyError missing

/-! ### Extended-value form of the per-pair effects

The same per-pair computation of lines 116-141 carried out in the
IEEE-special-value model `EF`: pandas computes `S_i` and `I_i`
columnwise with float division, and the loop multiplies the weight by
`np.log` of the factor ratios, accumulating from an integer 0.  This
form exhibits the behaviour of the run on degenerate base-period data
(a sector with zero output), where the real-valued idealization above
is not faithful because float division by zero produces infinities
rather than zero. -/

/-- `S_crops` under float semantics. -/
noncomputable def S_cropsF (r : Row) : EF :=
  EF.div (EF.fin r.A_crops) (EF.fin r.A_total)

/-- `S_livestock` under float semantics. -/
noncomputable def S_livestockF (r : Row) : EF :=
  EF.div (EF.fin r.A_livestock) (EF.fin r.A_total)

/-- `I_crops` under float semantics. -/
noncomputable def I_cropsF (r : Row) : EF :=
  EF.div (EF.fin r.E_crops) (EF.fin r.A_crops)

/-- `I_livestock` under float semantics. -/
noncomputable def I_livestockF (r : Row) : EF :=
  EF.div (EF.fin r.E_livestock) (EF.fin r.A_livestock)

/-- Activity effect under float semantics (line 133). -/
noncomputable def delta_E_activityF (r0 r : Row) : EF :=
  EF.add
    (EF.add (EF.fin 0)
      (EF.mul (lmdi_weightF (EF.fin r.E_crops) (EF.fin r0.E_crops))
        (EF.log (EF.div (EF.fin r.A_total) (EF.fin r0.A_total)))))
    (EF.mul (lmdi_weightF (EF.fin r.E_livestock) (EF.fin r0.E_livestock))
      (EF.log (EF.div (EF.fin r.A_total) (EF.fin r0.A_total))))

/-- Structure effect under float semantics (line 134). -/
noncomputable def delta_E_structureF (r0 r : Row) : EF :=
  EF.add
    (EF.add (EF.fin 0)
      (EF.mul (lmdi_weightF (EF.fin r.E_crops) (EF.fin r0.E_crops))
        (EF.log (EF.div (S_cropsF r) (S_cropsF r0)))))
    (EF.mul (lmdi_weightF (EF.fin r.E_livestock) (EF.fin r0.E_livestock))
      (EF.log (EF.div (S_livestockF r) (S_livestockF r0))))

/-- Intensity effect under float semantics (line 135). -/
noncomputable def delta_E_intensityF (r0 r : Row) : EF :=
  EF.add
    (EF.add (EF.fin 0)
      (EF.mul (lmdi_weightF (EF.fin r.E_crops) (EF.fin r0.E_crops))
        (EF.log (EF.div (I_cropsF r) (I_cropsF r0)))))
    (EF.mul (lmdi_weightF (EF.fin r.E_livestock) (EF.fin r0.E_livestock))
      (EF.log (EF.div (I_livestockF r) (I_livestockF r0))))

/-- Reconciliation sum under float semantics (line 141). -/
noncomputable def delta_E_total_calculatedF (r0 r : Row) : EF :=
  EF.add (EF.add (delta_E_activityF r0 r) (delta_E_structureF r0 r))
    (delta_E_intensityF r0 r)

/-- Per-sector LMDI identity: with strictly positive levels the weighted
sum of the three log-ratios telescopes to the sector's emissions change,
because activity, structure and intensity multiply back to the sector
emissions level. -/
lemma sector_term (Ec Ec0 Ai Ai0 A A0 : ℝ)
    (hEc : 0 < Ec) (hEc0 : 0 < Ec0) (hAi : 0 < Ai) (hAi0 : 0 < Ai0)
    (hA : 0 < A) (hA0 : 0 < A0) :
    lmdi_weight Ec Ec0 * Real.log (A / A0)
    + lmdi_weight Ec Ec0 * Real.log ((Ai / A) / (Ai0 / A0))
    + lmdi_weight Ec Ec0 * Real.log ((Ec / Ai) / (Ec0 / Ai0)) = Ec - Ec0 := by
  have hlog : Real.log (A / A0) + Real.log ((Ai / A) / (Ai0 / A0))
      + Real.log ((Ec / Ai) / (Ec0 / Ai0)) = Real.log Ec - Real.log Ec0 := by
    rw [Real.log_div hA.ne' hA0.ne',
      Real.log_div (div_ne_zero hAi.ne' hA.ne') (div_ne_zero hAi0.ne' hA0.ne'),
      Real.log_div hAi.ne' hA.ne', Real.log_div hAi0.ne' hA0.ne',
      Real.log_div (div_ne_zero hEc.ne' hAi.ne') (div_ne_zero hEc0.ne' hAi0.ne'),
      Real.log_div hEc.ne' hAi.ne', Real.log_div hEc0.ne' hAi0.ne']
    ring
  have key : lmdi_weight Ec Ec0 * (Real.log Ec - Real.log Ec0) = Ec - Ec0 := by
    by_cases h : Ec = Ec0
    · subst h
      simp [lmdi_weight]
    · have hne : Real.log Ec - Real.log Ec0 ≠ 0 :=
        sub_ne_zero.mpr (log_ne_log hEc hEc0 h)
      rw [lmdi_weight, if_neg h, substEpsR_of_ne Ec hEc.ne',
        substEpsR_of_ne Ec0 hEc0.ne']
      exact div_mul_cancel₀ (Ec - Ec0) hne
  calc lmdi_weight Ec Ec0 * Real.log (A / A0)
        + lmdi_weight Ec Ec0 * Real.log ((Ai / A) / (Ai0 / A0))
        + lmdi_weight Ec Ec0 * Real.log ((Ec / Ai) / (Ec0 / Ai0))
      = lmdi_weight Ec Ec0 * (Real.log (A / A0)
          + Real.log ((Ai / A) / (Ai0 / A0))
          + Real.log ((Ec / Ai) / (Ec0 / Ai0))) := by ring
    _ = lmdi_weight Ec Ec0 * (Real.log Ec - Real.log Ec0) := by rw [hlog]
    _ = Ec - Ec0 := key

/-- C1: reconciliation invariant of the LMDI decomposition: on a
two-sector consecutive year pair with strictly positive levels whose
total emissions equal the sum of the sector emissions in both years,
Effect_Activity + Effect_Structure + Effect_Intensity equals
Delta_E_Total_Actual = E_total(t) - E_total(t-1), exactly in real
arithmetic, and the engine's reconciliation column agrees. -/
theorem lmdi_reconciliation (r0 r : Row)
    (hEc0 : 0 < r0.E_crops) (hEl0 : 0 < r0.E_livestock)
    (hAc0 : 0 < r0.A_crops) (hAl0 : 0 < r0.A_livestock) (hA0 : 0 < r0.A_total)
    (hEc : 0 < r.E_crops) (hEl : 0 < r.E_livestock)
    (hAc : 0 < r.A_crops) (hAl : 0 < r.A_livestock) (hA : 0 < r.A_total)
    (hT0 : r0.E_total = r0.E_crops + r0.E_livestock)
    (hT : r.E_total = r.E_crops + r.E_livestock) :
    (resultRow r0 r).Effect_Activity + (resultRow r0 r).Effect_Structure
      + (resultRow r0 r).Effect_Intensity = (resultRow r0 r).Delta_E_Total_Actual
    ∧ (resultRow r0 r).Delta_E_Total_Actual = r.E_total - r0.E_total
    ∧ (resultRow r0 r).Delta_E_Total_Calculated
        = (resultRow r0 r).Delta_E_Total_Actual := by
  have hcrops := sector_term r.E_crops r0.E_crops r.A_crops r0.A_crops
    r.A_total r0.A_total hEc hEc0 hAc hAc0 hA hA0
  have hlive := sector_term r.E_livestock r0.E_livestock r.A_livestock
    r0.A_livestock r.A_total r0.A_total hEl hEl0 hAl hAl0 hA hA0
  have hmain : delta_E_activity r0 r + delta_E_structure r0 r
      + delta_E_intensity r0 r = r.E_total - r0.E_total := by
    simp only [delta_E_activity, delta_E_structure, delta_E_intensity,
      S_crops, S_livestock, I_crops, I_livestock]
    rw [hT, hT0]
    linarith
  refine ⟨hmain, rfl, ?_⟩
  simpa only [resultRow] using hmain

/-- First witness input row: year 2003 of a synthetic two-sector series
with strictly positive levels and consistent totals. -/
noncomputable def rowW1 : Row where
  Year := 2003
  E_total := 3
  E_crops := 1
  E_livestock := 2
  A_total := 10
  A_crops := 4
  A_livestock := 6

/-- Second witness input row: year 2004 of the same synthetic series. -/
noncomputable def rowW2 : Row where
  Year := 2004
  E_total := 5
  E_crops := 2
  E_livestock := 3
  A_total := 12
  A_crops := 5
  A_livestock := 7

/-- Witness for C1: the reconciliation identity on the synthetic pair
(rowW1, rowW2). -/
theorem lmdi_reconciliation_witness :
    (resultRow rowW1 rowW2).Effect_Activity
      + (resultRow rowW1 rowW2).Effect_Structure
      + (resultRow rowW1 rowW2).Effect_Intensity
      = (resultRow rowW1 rowW2).Delta_E_Total_Actual
    ∧ (resultRow rowW1 rowW2).Delta_E_Total_Actual
        = rowW2.E_total - rowW1.E_total
    ∧ (resultRow rowW1 rowW2).Delta_E_Total_Calculated
        = (resultRow rowW1 rowW2).Delta_E_Total_Actual :=
  lmdi_reconciliation rowW1 rowW2 (by norm_num [rowW1]) (by norm_num [rowW1])
    (by norm_num [rowW1]) (by norm_num [rowW1]) (by norm_num [rowW1])
    (by norm_num [rowW2]) (by norm_num [rowW2]) (by norm_num [rowW2])
    (by norm_num [rowW2]) (by norm_num [rowW2]) (by norm_num [rowW1])
    (by norm_num [rowW2])

/-- The year-pair loop emits one result row per consecutive pair. -/
lemma lmdi_results_length (rows : List Row) :
    (lmdi_results rows).length = rows.length - 1 := by
  induction rows with
  | nil => rfl
  | cons r0 rest ih =>
    cases rest with
    | nil => rfl
    | cons r rest' =>
      simp only [lmdi_results, List.length_cons] at ih ⊢
      omega

/-- The result rows are keyed by the years of the input rows after the
first, in order. -/
lemma lmdi_results_years (rows : List Row) :
    (lmdi_results rows).map ResultRow.Year = rows.tail.map Row.Year := by
  induction rows with
  | nil => rfl
  | cons r0 rest ih =>
    cases rest with
    | nil => rfl
    | cons r rest' =>
      simp only [lmdi_results, List.map_cons, List.tail_cons] at ih ⊢
      rw [ih]
      rfl

/-- C8: sequence-length contract: an input series of N rows (N at least
two, with strictly increasing years) yields exactly N-1 result rows,
keyed by the year of the later row of each consecutive pair, in ascending
year order; the first input year keys no result row. -/
theorem engine_sequence_contract (r0 r1 : Row) (rest : List Row)
    (hmono : List.Pairwise (fun a b => a < b) ((r0 :: r1 :: rest).map Row.Year)) :
    (lmdi_results (r0 :: r1 :: rest)).length = (r0 :: r1 :: rest).length - 1
    ∧ (lmdi_results (r0 :: r1 :: rest)).map ResultRow.Year
        = (r1 :: rest).map Row.Year
    ∧ List.Pairwise (fun a b => a < b)
        ((lmdi_results (r0 :: r1 :: rest)).map ResultRow.Year)
    ∧ ∀ rr ∈ lmdi_results (r0 :: r1 :: rest), r0.Year ≠ rr.Year := by
  have hyears := lmdi_results_years (r0 :: r1 :: rest)
  simp only [List.tail_cons] at hyears
  rw [List.map_cons] at hmono
  obtain ⟨hhead, htail⟩ := List.pairwise_cons.mp hmono
  refine ⟨lmdi_results_length _, hyears, ?_, ?_⟩
  · rw [hyears]
    exact htail
  · intro rr hrr
    have hmem : rr.Year ∈ (lmdi_results (r0 :: r1 :: rest)).map ResultRow.Year :=
      List.mem_map_of_mem ResultRow.Year hrr
    rw [hyears] at hmem
    exact ne_of_lt (hhead rr.Year hmem)

/-- Witness for C8: the two-row series (rowW1, rowW2) yields one result
row, keyed 2004, ascending, and 2003 keys no row. -/
theorem engine_sequence_contract_witness :
    (lmdi_results [rowW1, rowW2]).length = ([rowW1, rowW2] : List Row).length - 1
    ∧ (lmdi_results [rowW1, rowW2]).map ResultRow.Year = [rowW2].map Row.Year
    ∧ List.Pairwise (fun a b => a < b)
        ((lmdi_results [rowW1, rowW2]).map ResultRow.Year)
    ∧ ∀ rr ∈ lmdi_results [rowW1, rowW2], rowW1.Year ≠ rr.Year :=
  engine_sequence_contract rowW1 rowW2 []
    (by simp [rowW1, rowW2, List.pairwise_cons])

/-- C3 (amended): a missing required column makes the run end in a
KeyError outcome that names every missing column, with no result table
produced; but the year sequence is never validated: whenever all required
columns are present the run succeeds on any row sequence — including one
with duplicate or out-of-order years — decomposing positionally adjacent
pairs of the year-filtered rows. -/
theorem run_structural_errors (cols : List String) (rows : List Row) :
    (∀ c ∈ requiredCols, cols.contains c = false →
      ∃ m, run_lmdi_analysis cols rows = RunOutcome.keyError m ∧ c ∈ m)
    ∧ ((∀ c ∈ requiredCols, cols.contains c = true) →
      run_lmdi_analysis cols rows
        = RunOutcome.ok
            (lmdi_results (rows.filter (fun r => decide (2003 ≤ r.Year))))) := by
  constructor
  · intro c hc hnc
    have hcmem : c ∈ requiredCols.filter (fun c => !(cols.contains c)) :=
      List.mem_filter.mpr ⟨hc, by rw [hnc]; decide⟩
    have hne : ¬(requiredCols.filter (fun c => !(cols.contains c))).isEmpty = true := by
      intro h
      rw [List.isEmpty_iff] at h
      rw [h] at hcmem
      exact absurd hcmem (List.not_mem_nil c)
    refine ⟨requiredCols.filter (fun c => !(cols.contains c)), ?_, hcmem⟩
    simp only [run_lmdi_analysis]
    rw [if_neg hne]
  · intro hall
    have hnil : requiredCols.filter (fun c => !(cols.contains c)) = [] := by
      rw [List.filter_eq_nil_iff]
      intro c hc
      rw [hall c hc]
      decide
    simp only [run_lmdi_analysis, hnil]
    rfl

/-- First duplicate-year input row (year 2003). -/
noncomputable def rowD1 : Row where
  Year := 2003
  E_total := 3
  E_crops := 1
  E_livestock := 2
  A_total := 10
  A_crops := 4
  A_livestock := 6

/-- Second duplicate-year input row (also year 2003). -/
noncomputable def rowD2 : Row where
  Year := 2003
  E_total := 5
  E_crops := 2
  E_livestock := 3
  A_total := 12
  A_crops := 5
  A_livestock := 7

/-- Counterexample for C3 as stated: a year sequence that is not
strictly increasing (two rows both carrying year 2003) is accepted with
all required columns present, and the run succeeds, emitting a result
row, instead of failing with an ordering error. -/
theorem run_structural_errors_cex :
    rowD1.Year = rowD2.Year
    ∧ run_lmdi_analysis requiredCols [rowD1, rowD2]
        = RunOutcome.ok [resultRow rowD1 rowD2] := by
  constructor
  · rfl
  · rfl

/-- Witness for C3: a run on a frame with no columns at all ends in a
KeyError outcome naming the column E_total. -/
theorem run_structural_errors_witness :
    ∃ m, run_lmdi_analysis [] ([] : List Row) = RunOutcome.keyError m
      ∧ "E_total" ∈ m :=
  (run_structural_errors [] []).1 "E_total" (by decide) (by decide)

lemma EF.log_pinf : EF.log EF.pinf = EF.pinf := rfl

lemma EF.log_fin_zero : EF.log (EF.fin 0) = EF.ninf := by
  simp [EF.log]

lemma EF.div_fin_zero_pos {x : ℝ} (hx : 0 < x) :
    EF.div (EF.fin x) (EF.fin 0) = EF.pinf := by
  simp only [EF.div, if_pos rfl, if_neg hx.ne', if_pos hx]
  simp

lemma EF.mul_fin_pinf_pos {w : ℝ} (hw : 0 < w) :
    EF.mul (EF.fin w) EF.pinf = EF.pinf := by
  simp only [EF.mul, if_neg hw.ne', if_pos hw]

lemma EF.mul_fin_ninf_pos {w : ℝ} (hw : 0 < w) :
    EF.mul (EF.fin w) EF.ninf = EF.ninf := by
  simp only [EF.mul, if_neg hw.ne', if_pos hw]

/-- Degenerate base period: a sector with zero output at t-1 (with the
other levels positive) gives a zero structure share at t-1, an infinite
intensity at t-1, a structure effect of +inf, an intensity effect of
-inf, a finite activity effect, and a NaN reconciliation sum. -/
lemma zero_base_effects (r0 r : Row)
    (hc0 : r0.A_crops = 0)
    (hAT0 : 0 < r0.A_total) (hEc0 : 0 < r0.E_crops)
    (hAl0 : 0 < r0.A_livestock) (hEl0 : 0 < r0.E_livestock)
    (hAT : 0 < r.A_total) (hAc : 0 < r.A_crops) (hEc : 0 < r.E_crops)
    (hAl : 0 < r.A_livestock) (hEl : 0 < r.E_livestock) :
    S_cropsF r0 = EF.fin 0 ∧ I_cropsF r0 = EF.pinf
    ∧ delta_E_structureF r0 r = EF.pinf
    ∧ delta_E_intensityF r0 r = EF.ninf
    ∧ (∃ x : ℝ, delta_E_activityF r0 r = EF.fin x)
    ∧ delta_E_total_calculatedF r0 r = EF.nan := by
  obtain ⟨wc, hwc, hwcpos⟩ := lmdi_weightF_fin_pos hEc hEc0
  obtain ⟨wl, hwl, hwlpos⟩ := lmdi_weightF_fin_pos hEl hEl0
  have hSc0 : S_cropsF r0 = EF.fin 0 := by
    simp only [S_cropsF, hc0, EF.div_fin_fin hAT0.ne', zero_div]
  have hIc0 : I_cropsF r0 = EF.pinf := by
    simp only [I_cropsF, hc0]
    exact EF.div_fin_zero_pos hEc0
  have hSc : S_cropsF r = EF.fin (r.A_crops / r.A_total) :=
    EF.div_fin_fin hAT.ne'
  have hSl : S_livestockF r = EF.fin (r.A_livestock / r.A_total) :=
    EF.div_fin_fin hAT.ne'
  have hSl0 : S_livestockF r0 = EF.fin (r0.A_livestock / r0.A_total) :=
    EF.div_fin_fin hAT0.ne'
  have hIc : I_cropsF r = EF.fin (r.E_crops / r.A_crops) :=
    EF.div_fin_fin hAc.ne'
  have hIl : I_livestockF r = EF.fin (r.E_livestock / r.A_livestock) :=
    EF.div_fin_fin hAl.ne'
  have hIl0 : I_livestockF r0 = EF.fin (r0.E_livestock / r0.A_livestock) :=
    EF.div_fin_fin hAl0.ne'
  have hsc : 0 < r.A_crops / r.A_total := div_pos hAc hAT
  have hratio_c : EF.div (S_cropsF r) (S_cropsF r0) = EF.pinf := by
    rw [hSc, hSc0]
    exact EF.div_fin_zero_pos hsc
  have hql : 0 < (r.A_livestock / r.A_total) / (r0.A_livestock / r0.A_total) :=
    div_pos (div_pos hAl hAT) (div_pos hAl0 hAT0)
  have hratio_l : EF.div (S_livestockF r) (S_livestockF r0)
      = EF.fin ((r.A_livestock / r.A_total) / (r0.A_livestock / r0.A_total)) := by
    rw [hSl, hSl0]
    exact EF.div_fin_fin (div_pos hAl0 hAT0).ne'
  have hstruct : delta_E_structureF r0 r = EF.pinf := by
    simp only [delta_E_structureF]
    rw [hwc, hwl, hratio_c, hratio_l, EF.log_pinf, EF.log_fin_pos hql,
      EF.mul_fin_pinf_pos hwcpos]
    rfl
  have hratio_ic : EF.div (I_cropsF r) (I_cropsF r0) = EF.fin 0 := by
    rw [hIc, hIc0]
    rfl
  have hil0 : 0 < r0.E_livestock / r0.A_livestock := div_pos hEl0 hAl0
  have hqi : 0 < (r.E_livestock / r.A_livestock)
      / (r0.E_livestock / r0.A_livestock) :=
    div_pos (div_pos hEl hAl) hil0
  have hratio_il : EF.div (I_livestockF r) (I_livestockF r0)
      = EF.fin ((r.E_livestock / r.A_livestock)
          / (r0.E_livestock / r0.A_livestock)) := by
    rw [hIl, hIl0]
    exact EF.div_fin_fin hil0.ne'
  have hint : delta_E_intensityF r0 r = EF.ninf := by
    simp only [delta_E_intensityF]
    rw [hwc, hwl, hratio_ic, hratio_il, EF.log_fin_zero, EF.log_fin_pos hqi,
      EF.mul_fin_ninf_pos hwcpos]
    rfl
  have hqa : 0 < r.A_total / r0.A_total := div_pos hAT hAT0
  have hact : delta_E_activityF r0 r
      = EF.fin (0 + wc * Real.log (r.A_total / r0.A_total)
          + wl * Real.log (r.A_total / r0.A_total)) := by
    simp only [delta_E_activityF]
    rw [hwc, hwl, EF.div_fin_fin hAT0.ne', EF.log_fin_pos hqa]
    rfl
  have hcalc : delta_E_total_calculatedF r0 r = EF.nan := by
    simp only [delta_E_total_calculatedF]
    rw [hact, hstruct, hint]
    rfl
  exact ⟨hSc0, hIc0, hstruct, hint, ⟨_, hact⟩, hcalc⟩

/-- C9 (amended): undefined base-period behaviour: for a year pair in
which the crops sector has A_crops(t-1) = 0 and the remaining levels are
strictly positive, S_crops(t-1) is the defined value 0 and
I_crops(t-1) is +inf; Effect_Structure evaluates to +inf and
Effect_Intensity to -inf — non-finite values that are distinguishable
from an effect computed as zero, but are infinities rather than
missing/NaN values — and their sum, the reconciliation column, is NaN. -/
theorem lmdi_zero_base_propagation (r0 r : Row)
    (hc0 : r0.A_crops = 0)
    (hAT0 : 0 < r0.A_total) (hEc0 : 0 < r0.E_crops)
    (hAl0 : 0 < r0.A_livestock) (hEl0 : 0 < r0.E_livestock)
    (hAT : 0 < r.A_total) (hAc : 0 < r.A_crops) (hEc : 0 < r.E_crops)
    (hAl : 0 < r.A_livestock) (hEl : 0 < r.E_livestock) :
    S_cropsF r0 = EF.fin 0 ∧ I_cropsF r0 = EF.pinf
    ∧ delta_E_structureF r0 r = EF.pinf
    ∧ delta_E_intensityF r0 r = EF.ninf
    ∧ delta_E_structureF r0 r ≠ EF.nan
    ∧ delta_E_structureF r0 r ≠ EF.fin 0
    ∧ delta_E_intensityF r0 r ≠ EF.nan
    ∧ delta_E_intensityF r0 r ≠ EF.fin 0
    ∧ delta_E_total_calculatedF r0 r = EF.nan := by
  obtain ⟨h1, h2, h3, h4, _, h6⟩ :=
    zero_base_effects r0 r hc0 hAT0 hEc0 hAl0 hEl0 hAT hAc hEc hAl hEl
  refine ⟨h1, h2, h3, h4, ?_, ?_, ?_, ?_, h6⟩
  · rw [h3]
    exact fun h => EF.noConfusion h
  · rw [h3]
    exact fun h => EF.noConfusion h
  · rw [h4]
    exact fun h => EF.noConfusion h
  · rw [h4]
    exact fun h => EF.noConfusion h

/-- Base-period row with a zero crops output (year 2003). -/
noncomputable def rowZ0 : Row where
  Year := 2003
  E_total := 2
  E_crops := 1
  E_livestock := 1
  A_total := 1
  A_crops := 0
  A_livestock := 1

/-- Current-period row with positive levels (year 2004). -/
noncomputable def rowZ1 : Row where
  Year := 2004
  E_total := 2
  E_crops := 1
  E_livestock := 1
  A_total := 2
  A_crops := 1
  A_livestock := 1

/-- Counterexample for C9 as stated: on the concrete pair (rowZ0, rowZ1)
with A_crops(t-1) = 0, the structure share S_crops(t-1) is the defined
float 0 — not an undefined value — and Effect_Structure and
Effect_Intensity are the infinities +inf and -inf, which are not
missing/undefined (NaN) values. -/
theorem lmdi_zero_base_propagation_cex :
    rowZ0.A_crops = 0
    ∧ S_cropsF rowZ0 = EF.fin 0
    ∧ delta_E_structureF rowZ0 rowZ1 = EF.pinf
    ∧ delta_E_intensityF rowZ0 rowZ1 = EF.ninf
    ∧ EF.pinf ≠ EF.nan
    ∧ EF.ninf ≠ EF.nan := by
  obtain ⟨h1, h2, h3, h4, h5, h6⟩ :=
    zero_base_effects rowZ0 rowZ1 rfl (by norm_num [rowZ0]) (by norm_num [rowZ0])
      (by norm_num [rowZ0]) (by norm_num [rowZ0]) (by norm_num [rowZ1])
      (by norm_num [rowZ1]) (by norm_num [rowZ1]) (by norm_num [rowZ1])
      (by norm_num [rowZ1])
  exact ⟨rfl, h1, h3, h4, fun h => EF.noConfusion h, fun h => EF.noConfusion h⟩

/-- Witness for C9: the amended statement at the concrete pair
(rowZ0, rowZ1). -/
theorem lmdi_zero_base_propagation_witness :
    S_cropsF rowZ0 = EF.fin 0 ∧ I_cropsF rowZ0 = EF.pinf
    ∧ delta_E_structureF rowZ0 rowZ1 = EF.pinf
    ∧ delta_E_intensityF rowZ0 rowZ1 = EF.ninf
    ∧ delta_E_structureF rowZ0 rowZ1 ≠ EF.nan
    ∧ delta_E_structureF rowZ0 rowZ1 ≠ EF.fin 0
    ∧ delta_E_intensityF rowZ0 rowZ1 ≠ EF.nan
    ∧ delta_E_intensityF rowZ0 rowZ1 ≠ EF.fin 0
    ∧ delta_E_total_calculatedF rowZ0 rowZ1 = EF.nan :=
  lmdi_zero_base_propagation rowZ0 rowZ1 rfl (by norm_num [rowZ0])
    (by norm_num [rowZ0]) (by norm_num [rowZ0]) (by norm_num [rowZ0])
    (by norm_num [rowZ1]) (by norm_num [rowZ1]) (by norm_num [rowZ1])
    (by norm_num [rowZ1]) (by norm_num [rowZ1])
